import Mathlib

/-!
Verification development for the house-manager parcelle application.

The definitions below are a shallow embedding of the application's record
persistence and validation model:
  - src/app/add-parcelle-form.tsx (gallery-variant form: validateForm,
    saveImageToMediaLibrary, pickImage, handleSave),
  - src/unnamed/part_000 (file-variant form with the identical validateForm,
    and the list screen: loadParcelles, deleteImageFromMediaLibrary,
    deleteParcelle, formatDate, exportToExcel).

JavaScript string trimming and the Number() conversion are embedded from
ECMAScript semantics (String.prototype.trim, StringToNumber), with numeric
values represented as exact rationals.  Timestamps (createdAt, produced in
the source by new Date().toISOString() and consumed only through
new Date(s).getTime()) are modeled directly as their epoch-millisecond
value.  Device effects (permissions, file copies, storage writes, sharing)
are modeled by explicit environment records carrying each call's outcome.
-/

namespace HouseManager

/-! ### JavaScript whitespace and String.prototype.trim -/

/-- ECMAScript WhiteSpace and LineTerminator code points (the set trimmed by
String.prototype.trim). -/
def isJsWhitespace (c : Char) : Bool :=
  let n := c.toNat
  n = 9 || n = 10 || n = 11 || n = 12 || n = 13 || n = 32 || n = 160 ||
  n = 0x1680 || (0x2000 ≤ n && n ≤ 0x200a) || n = 0x2028 || n = 0x2029 ||
  n = 0x202f || n = 0x205f || n = 0x3000 || n = 0xfeff

/-- Trailing-whitespace removal, via reversal. -/
def dropTrailingWs (l : List Char) : List Char :=
  (l.reverse.dropWhile isJsWhitespace).reverse

/-- JavaScript s.trim() on the underlying character list: remove leading and
trailing whitespace. -/
def jsTrimList (l : List Char) : List Char :=
  dropTrailingWs (l.dropWhile isJsWhitespace)

/-- JavaScript s.trim(). -/
def jsTrim (s : String) : String :=
  String.mk (jsTrimList s.data)

/-! ### The JavaScript Number() conversion (ECMAScript StringToNumber)

Numeric values are represented exactly as rationals; NaN and the infinities
are explicit constructors. -/

inductive JsNum where
  | nan
  | posInf
  | negInf
  | num (val : ℚ)
deriving Repr, DecidableEq

def isDigitChar (c : Char) : Bool :=
  48 ≤ c.toNat && c.toNat ≤ 57

def digitsToNat (l : List Char) : Nat :=
  l.foldl (fun acc c => acc * 10 + (c.toNat - 48)) 0

def parseDigitsNat (l : List Char) : Option Nat :=
  if !l.isEmpty && l.all isDigitChar then some (digitsToNat l) else none

def hexDigitVal (c : Char) : Option Nat :=
  if 48 ≤ c.toNat && c.toNat ≤ 57 then some (c.toNat - 48)
  else if 97 ≤ c.toNat && c.toNat ≤ 102 then some (c.toNat - 87)
  else if 65 ≤ c.toNat && c.toNat ≤ 70 then some (c.toNat - 55)
  else none

def parseRadixAux (radix : Nat) : List Char → Nat → Option Nat
  | [], acc => some acc
  | c :: cs, acc =>
    match hexDigitVal c with
    | some v => if v < radix then parseRadixAux radix cs (acc * radix + v) else none
    | none => none

/-- Digit string in the given radix (for the 0x / 0o / 0b literal forms). -/
def parseRadixNat (radix : Nat) (l : List Char) : Option Nat :=
  if l.isEmpty then none else parseRadixAux radix l 0

/-- Signed decimal exponent part (after the e / E). -/
def parseSignedExp (l : List Char) : Option Int :=
  match l with
  | '+' :: rest => (parseDigitsNat rest).map (fun n => (n : Int))
  | '-' :: rest => (parseDigitsNat rest).map (fun n => -(n : Int))
  | _ => (parseDigitsNat l).map (fun n => (n : Int))

/-- Unsigned mantissa: digits, digits.digits, .digits or digits. -/
def parseMantissa (l : List Char) : Option ℚ :=
  let ip := l.takeWhile (fun c => !(c == '.'))
  let rest := l.dropWhile (fun c => !(c == '.'))
  match rest with
  | [] => (parseDigitsNat ip).map (fun n => (n : ℚ))
  | _ :: fp =>
    if fp.any (fun c => c == '.') then none
    else if ip.isEmpty && fp.isEmpty then none
    else if ip.all isDigitChar && fp.all isDigitChar then
      some ((digitsToNat (ip ++ fp) : ℚ) / (10 : ℚ) ^ fp.length)
    else none

/-- Unsigned decimal literal with optional exponent. -/
def parseDecimalValue (l : List Char) : Option ℚ :=
  let mant := l.takeWhile (fun c => !(c == 'e' || c == 'E'))
  let rest := l.dropWhile (fun c => !(c == 'e' || c == 'E'))
  match rest with
  | [] => parseMantissa mant
  | _ :: ex =>
    (parseMantissa mant).bind (fun m =>
      (parseSignedExp ex).map (fun e => m * (10 : ℚ) ^ e))

def parseUnsignedDecOrInf (l : List Char) (positive : Bool) : Option JsNum :=
  if l = ['I', 'n', 'f', 'i', 'n', 'i', 't', 'y'] then
    some (if positive then JsNum.posInf else JsNum.negInf)
  else
    (parseDecimalValue l).map (fun q => JsNum.num (if positive then q else -q))

def parseStrDecimal (l : List Char) : Option JsNum :=
  match l with
  | '+' :: rest => parseUnsignedDecOrInf rest true
  | '-' :: rest => parseUnsignedDecOrInf rest false
  | _ => parseUnsignedDecOrInf l true

def parseNumericLiteral (l : List Char) : Option JsNum :=
  match l with
  | '0' :: c :: rest =>
    if c == 'x' || c == 'X' then (parseRadixNat 16 rest).map (fun n => JsNum.num (n : ℚ))
    else if c == 'o' || c == 'O' then (parseRadixNat 8 rest).map (fun n => JsNum.num (n : ℚ))
    else if c == 'b' || c == 'B' then (parseRadixNat 2 rest).map (fun n => JsNum.num (n : ℚ))
    else parseStrDecimal l
  | _ => parseStrDecimal l

/-- ECMAScript StringToNumber: trim, empty means 0, otherwise parse the
numeric literal, with NaN on failure. -/
def jsStringToNumber (s : String) : JsNum :=
  let l := jsTrimList s.data
  if l.isEmpty then JsNum.num 0
  else
    match parseNumericLiteral l with
    | some v => v
    | none => JsNum.nan

def jsIsNaN : JsNum → Bool
  | JsNum.nan => true
  | _ => false

/-- The JavaScript comparison v <= 0 (false on NaN). -/
def jsLeZero : JsNum → Bool
  | JsNum.nan => false
  | JsNum.posInf => false
  | JsNum.negInf => true
  | JsNum.num q => decide (q ≤ 0)

/-- The value is a number (not NaN) and strictly greater than 0. -/
def jsNumberPositive : JsNum → Bool
  | JsNum.nan => false
  | JsNum.posInf => true
  | JsNum.negInf => false
  | JsNum.num q => decide (0 < q)

/-- The source condition isNaN(Number(x)) || Number(x) <= 0. -/
def nombreDeLogementInvalid (s : String) : Bool :=
  jsIsNaN (jsStringToNumber s) || jsLeZero (jsStringToNumber s)

/-! ### Data model -/

/-- The image reference stored on a record: uri, name, and (gallery variant)
an optional asset id. -/
structure ImageRef where
  uri : String
  name : String
  assetId : Option String := none
deriving Repr, DecidableEq

/-- The Parcelle entity.  createdAt is the epoch-millisecond value of the
ISO-8601 creation timestamp (the code consumes the stored string only via
new Date(s).getTime(), which recovers exactly this number). -/
structure Parcelle where
  id : String
  numeroDeLot : String
  etatDeParcelle : String
  nombreDeLogement : String
  acheve : String
  enCours : String
  image : Option ImageRef
  createdAt : Nat
deriving Repr, DecidableEq

/-- A record whose five text fields are unchanged by trimming. -/
def TrimStable (p : Parcelle) : Prop :=
  p.numeroDeLot = jsTrim p.numeroDeLot ∧
  p.etatDeParcelle = jsTrim p.etatDeParcelle ∧
  p.nombreDeLogement = jsTrim p.nombreDeLogement ∧
  p.acheve = jsTrim p.acheve ∧
  p.enCours = jsTrim p.enCours

instance (p : Parcelle) : Decidable (TrimStable p) :=
  inferInstanceAs (Decidable (_ ∧ _ ∧ _ ∧ _ ∧ _))

/-! ### Validator (validateForm, identical in both form variants) -/

def msgLotRequis : String := "N° de lot requis"
def msgLotExiste : String := "Ce numéro de lot existe déjà"
def msgEtatRequis : String := "État de parcelle requis"
def msgLogementsRequis : String := "Nombre de logements requis"
def msgNombrePositif : String := "Doit être un nombre positif"

/-- The newErrors object of validateForm: one optional message per field the
form tracks. -/
structure FormErrors where
  numeroDeLot : Option String
  etatDeParcelle : Option String
  nombreDeLogement : Option String
  acheve : Option String
  enCours : Option String
deriving Repr, DecidableEq

def noErrors : FormErrors :=
  { numeroDeLot := none, etatDeParcelle := none, nombreDeLogement := none,
    acheve := none, enCours := none }

/-- validateForm, embedded as the source writes it: the error object starts
empty and each field rule adds its own key in sequence. -/
def validateForm (numeroDeLot etatDeParcelle nombreDeLogement : String)
    (parcelles : List Parcelle) : FormErrors :=
  let e0 := noErrors
  let e1 :=
    if jsTrim numeroDeLot = "" then { e0 with numeroDeLot := some msgLotRequis }
    else if (parcelles.find? (fun p => decide (p.numeroDeLot = jsTrim numeroDeLot))).isSome then
      { e0 with numeroDeLot := some msgLotExiste }
    else e0
  let e2 :=
    if jsTrim etatDeParcelle = "" then { e1 with etatDeParcelle := some msgEtatRequis }
    else e1
  let e3 :=
    if jsTrim nombreDeLogement = "" then { e2 with nombreDeLogement := some msgLogementsRequis }
    else if nombreDeLogementInvalid nombreDeLogement then
      { e2 with nombreDeLogement := some msgNombrePositif }
    else e2
  e3

/-- The numeroDeLot rule in isolation. -/
def checkNumeroDeLot (numeroDeLot : String) (parcelles : List Parcelle) : Option String :=
  if jsTrim numeroDeLot = "" then some msgLotRequis
  else if (parcelles.find? (fun p => decide (p.numeroDeLot = jsTrim numeroDeLot))).isSome then
    some msgLotExiste
  else none

/-- The etatDeParcelle rule in isolation. -/
def checkEtatDeParcelle (etatDeParcelle : String) : Option String :=
  if jsTrim etatDeParcelle = "" then some msgEtatRequis else none

/-- The nombreDeLogement rule in isolation. -/
def checkNombreDeLogement (nombreDeLogement : String) : Option String :=
  if jsTrim nombreDeLogement = "" then some msgLogementsRequis
  else if nombreDeLogementInvalid nombreDeLogement then some msgNombrePositif
  else none

/-! ### Asset manager (gallery variant of add-parcelle-form.tsx) -/

/-- Outcomes of the device media/file calls an operation awaits. -/
structure MediaEnv where
  permissionGranted : Bool
  copyFails : Bool
  saveFails : Bool
  deleteTempFails : Bool
  deleteFails : Bool
deriving Repr, DecidableEq

/-- saveImageToMediaLibrary: request permission (null on denial, after an
alert), copy to a temp cache path, register into the media library, delete
the temp copy; any of those three steps throwing propagates the error.  On
success the source returns the ORIGINAL capture uri and an explicitly
undefined assetId, since saveToLibraryAsync returns no asset handle. -/
def saveImageToMediaLibrary (env : MediaEnv) (numeroDeLotState : String)
    (fileMillis : Nat) (imageUri imageName : String) : Except Unit (Option ImageRef) :=
  if env.permissionGranted = false then Except.ok none
  else if env.copyFails || env.saveFails || env.deleteTempFails then Except.error ()
  else
    let fileName := "Parcelle_" ++
      (if jsTrim numeroDeLotState = "" then toString fileMillis else jsTrim numeroDeLotState) ++
      "_" ++ toString fileMillis ++ ".jpg"
    Except.ok (some { uri := imageUri, name := fileName, assetId := none })

/-- Environment of a pickImage interaction. -/
structure PickEnv where
  cameraGranted : Bool
  canceled : Bool
  capturedUri : String
  nowMillis : Nat
deriving Repr, DecidableEq

/-- pickImage (gallery variant): on a successful capture the form image state
is set to the capture uri and a generated name; no assetId is assigned. -/
def pickImage (env : PickEnv) (numeroDeLot : String) : Option ImageRef :=
  if env.cameraGranted = false then none
  else if env.canceled then none
  else some { uri := env.capturedUri,
              name := "Parcelle_" ++
                (if jsTrim numeroDeLot = "" then "temp" else jsTrim numeroDeLot) ++
                "_" ++ toString env.nowMillis ++ ".jpg",
              assetId := none }

/-- What the asset-deletion helper logged; the helper itself returns normally
in every case (every failure is caught inside it). -/
inductive AssetDeleteLog where
  | skipped
  | permissionDenied
  | deleted
  | failedButCaught
deriving Repr, DecidableEq

/-- deleteImageFromMediaLibrary: return early on a missing (or falsy) asset
id, warn and return on permission denial, and catch any deletion error.  The
codomain is a plain log value: no branch propagates an error. -/
def deleteImageFromMediaLibrary (env : MediaEnv) (assetId : Option String) : AssetDeleteLog :=
  match assetId with
  | none => AssetDeleteLog.skipped
  | some aid =>
    if aid = "" then AssetDeleteLog.skipped
    else if env.permissionGranted = false then AssetDeleteLog.permissionDenied
    else if env.deleteFails then AssetDeleteLog.failedButCaught
    else AssetDeleteLog.deleted

/-! ### handleSave (gallery variant) -/

/-- The form component's state at the moment Sauvegarder is pressed:
the five text fields, the picked image, and the parcelles list loaded
from storage on mount. -/
structure FormState where
  numeroDeLot : String
  etatDeParcelle : String
  nombreDeLogement : String
  acheve : String
  enCours : String
  image : Option ImageRef
  parcelles : List Parcelle
deriving Repr, DecidableEq

/-- Environment of one handleSave run: media-call outcomes, the Date.now()
values observed, and whether the AsyncStorage write throws. -/
structure SaveEnv where
  media : MediaEnv
  idMillis : Nat
  fileMillis : Nat
  nowMillis : Nat
  storageWriteFails : Bool
deriving Repr, DecidableEq

/-- The JavaScript expression s || two-quotes on a string already computed:
the empty string is falsy. -/
def jsOrEmpty (s : String) : String :=
  if s = "" then "" else s

/-- The record handleSave constructs after validation passes. -/
def newParcelleOf (st : FormState) (env : SaveEnv) (savedImage : Option ImageRef) : Parcelle :=
  { id := toString env.idMillis,
    numeroDeLot := jsTrim st.numeroDeLot,
    etatDeParcelle := jsTrim st.etatDeParcelle,
    nombreDeLogement := jsTrim st.nombreDeLogement,
    acheve := jsOrEmpty (jsTrim st.acheve),
    enCours := jsOrEmpty (jsTrim st.enCours),
    image := savedImage,
    createdAt := env.nowMillis }

/-- The image-saving stage of handleSave: nothing to do without an image;
otherwise call saveImageToMediaLibrary, keeping the original form image as a
fallback when that returns null (permission denied), and propagating a
thrown error to handleSave's catch. -/
def imageStep (st : FormState) (env : SaveEnv) : Except Unit (Option ImageRef) :=
  match st.image with
  | none => Except.ok none
  | some img =>
    match saveImageToMediaLibrary env.media st.numeroDeLot env.fileMillis img.uri img.name with
    | Except.ok (some mediaAsset) =>
      Except.ok (some { uri := mediaAsset.uri, name := mediaAsset.name,
                        assetId := mediaAsset.assetId })
    | Except.ok none => Except.ok (some img)
    | Except.error e => Except.error e

/-- Result of one handleSave run: the validation errors set on the form, the
record handed to onSave (only on full success), the in-memory list, the
persisted list, and whether the failure alert was shown. -/
structure SaveResult where
  errors : FormErrors
  newRecord : Option Parcelle
  parcelles : List Parcelle
  storage : List Parcelle
  alertError : Bool
deriving Repr, DecidableEq

/-- handleSave: abort if validateForm reports any error; otherwise save the
image (a throw is caught: alert, nothing mutated), build the new record from
the trimmed field values, optimistically append it in memory, then persist;
a storage-write throw is caught after the in-memory append. -/
def handleSave (st : FormState) (storage : List Parcelle) (env : SaveEnv) : SaveResult :=
  if validateForm st.numeroDeLot st.etatDeParcelle st.nombreDeLogement st.parcelles = noErrors then
    match imageStep st env with
    | Except.error _ =>
      { errors := noErrors, newRecord := none, parcelles := st.parcelles,
        storage := storage, alertError := true }
    | Except.ok savedImage =>
      if env.storageWriteFails then
        { errors := noErrors, newRecord := none,
          parcelles := st.parcelles ++ [newParcelleOf st env savedImage],
          storage := storage, alertError := true }
      else
        { errors := noErrors, newRecord := some (newParcelleOf st env savedImage),
          parcelles := st.parcelles ++ [newParcelleOf st env savedImage],
          storage := st.parcelles ++ [newParcelleOf st env savedImage],
          alertError := false }
  else
    { errors := validateForm st.numeroDeLot st.etatDeParcelle st.nombreDeLogement st.parcelles,
      newRecord := none, parcelles := st.parcelles, storage := storage, alertError := false }

/-! ### Record store: list-screen load and delete (src/unnamed/part_000) -/

/-- Display order: a before b when b's creation instant is at most a's
(the comparator new Date(b).getTime() - new Date(a).getTime() is
nonpositive). -/
def createdDesc (a b : Parcelle) : Prop :=
  b.createdAt ≤ a.createdAt

instance : DecidableRel createdDesc :=
  fun a b => inferInstanceAs (Decidable (b.createdAt ≤ a.createdAt))

instance : IsTotal Parcelle createdDesc :=
  ⟨fun a b => Nat.le_total b.createdAt a.createdAt⟩

instance : IsTrans Parcelle createdDesc :=
  ⟨fun _ _ _ hab hbc => le_trans hbc hab⟩

/-- loadParcelles: parse the stored collection and sort it newest-first for
display (a stable sort under the createdAt comparator, per Array.sort). -/
def loadParcelles (storage : List Parcelle) : List Parcelle :=
  List.insertionSort createdDesc storage

/-- The whole load operation: it only reads, so the persisted collection
comes back unchanged next to the sorted display list. -/
def loadParcellesOp (storage : List Parcelle) : List Parcelle × List Parcelle :=
  (storage, loadParcelles storage)

/-- The list surviving a deletion: every record whose id differs from the
target id, in order. -/
def deleteParcelleFilter (parcelles : List Parcelle) (parcelleId : String) : List Parcelle :=
  parcelles.filter (fun p => decide (p.id ≠ parcelleId))

/-- Environment of one deleteParcelle interaction. -/
structure DeleteEnv where
  confirmed : Bool
  storageWriteFails : Bool
  media : MediaEnv
deriving Repr, DecidableEq

def msgDeleteSuccess : String := "Parcelle supprimée avec succès"
def msgDeleteError : String := "Une erreur s\x27est produite lors de la suppression"

/-- Result of one deleteParcelle run. -/
structure DeleteResult where
  parcelles : List Parcelle
  storage : List Parcelle
  assetLog : Option AssetDeleteLog
  alert : Option String
deriving Repr, DecidableEq

/-- deleteParcelle: after confirmation, filter the record out, persist the
filtered list (a throw is caught: alert and reload from storage), then
best-effort delete the gallery asset when the record's image carries a
truthy assetId — that helper returns a log in every case, so the success
path always completes. -/
def deleteParcelle (parcelles storage : List Parcelle) (parcelleId : String)
    (image : Option ImageRef) (env : DeleteEnv) : DeleteResult :=
  if env.confirmed = false then
    { parcelles := parcelles, storage := storage, assetLog := none, alert := none }
  else if env.storageWriteFails then
    { parcelles := loadParcelles storage, storage := storage,
      assetLog := none, alert := some msgDeleteError }
  else
    let updated := deleteParcelleFilter parcelles parcelleId
    let log : Option AssetDeleteLog :=
      match image with
      | some img =>
        match img.assetId with
        | some aid =>
          if aid = "" then none
          else some (deleteImageFromMediaLibrary env.media (some aid))
        | none => none
      | none => none
    { parcelles := updated, storage := updated, assetLog := log,
      alert := some msgDeleteSuccess }

/-! ### Exporter (exportToExcel in src/unnamed/part_000) -/

def monthNameFr (m : Nat) : String :=
  match m with
  | 1 => "janvier"
  | 2 => "février"
  | 3 => "mars"
  | 4 => "avril"
  | 5 => "mai"
  | 6 => "juin"
  | 7 => "juillet"
  | 8 => "août"
  | 9 => "septembre"
  | 10 => "octobre"
  | 11 => "novembre"
  | 12 => "décembre"
  | _ => ""

def pad2 (n : Nat) : String :=
  if n < 10 then "0" ++ toString n else toString n

/-- Civil date from a day count since 1970-01-01 (valid for nonnegative
epoch days): year, month, day. -/
def civilFromDays (z : Nat) : Nat × Nat × Nat :=
  let z2 := z + 719468
  let era := z2 / 146097
  let doe := z2 % 146097
  let yoe := (doe - doe / 1460 + doe / 36524 - doe / 146096) / 365
  let y := yoe + era * 400
  let doy := doe - (365 * yoe + yoe / 4 - yoe / 100)
  let mp := (5 * doy + 2) / 153
  let d := doy - (153 * mp + 2) / 5 + 1
  let m := if mp < 10 then mp + 3 else mp - 9
  (if m ≤ 2 then y + 1 else y, m, d)

/-- formatDate: the fr-FR locale rendering (numeric day, long month, numeric
year, two-digit hour and minute) of the creation instant, computed here in
UTC from the epoch milliseconds. -/
def formatDate (t : Nat) : String :=
  let days := t / 86400000
  let msOfDay := t % 86400000
  let hour := msOfDay / 3600000
  let minute := (msOfDay % 3600000) / 60000
  let ymd := civilFromDays days
  toString ymd.2.2 ++ " " ++ monthNameFr ymd.2.1 ++ " " ++ toString ymd.1 ++
    " à " ++ pad2 hour ++ ":" ++ pad2 minute

/-- One spreadsheet cell: the sequential index is written as a number, every
other column as text. -/
inductive Cell where
  | str (s : String)
  | num (n : Nat)
deriving Repr, DecidableEq

/-- The 11 column labels, in the fixed order of the export projection. -/
def excelHeader : List String :=
  ["N° Séquentiel", "N° de Lot", "État de Parcelle", "Nombre de Logements",
   "Étages Achevés", "Étages en Cours", "Nom de l\x27Image", "Contient une Image",
   "Photo dans Galerie", "Date d\x27Ajout", "ID Parcelle"]

def headerCells : List Cell :=
  excelHeader.map Cell.str

/-- The data row for the record at 0-based position idx, mirroring the
object literal of the source's map (JavaScript truthiness: an empty image
name and an empty assetId fall back like a missing one). -/
def excelRow (idx : Nat) (p : Parcelle) : List Cell :=
  [Cell.num (idx + 1),
   Cell.str p.numeroDeLot,
   Cell.str p.etatDeParcelle,
   Cell.str p.nombreDeLogement,
   Cell.str (jsOrEmpty p.acheve),
   Cell.str (jsOrEmpty p.enCours),
   Cell.str (match p.image with
             | some i => if i.name = "" then "Aucune image" else i.name
             | none => "Aucune image"),
   Cell.str (if p.image.isSome then "Oui" else "Non"),
   Cell.str (match p.image with
             | some i =>
               match i.assetId with
               | some a => if a = "" then "Non" else "Oui"
               | none => "Non"
             | none => "Non"),
   Cell.str (formatDate p.createdAt),
   Cell.str p.id]

/-- The data rows from 0-based position startIdx on. -/
def excelRows (startIdx : Nat) : List Parcelle → List (List Cell)
  | [] => []
  | p :: ps => excelRow startIdx p :: excelRows (startIdx + 1) ps

/-- The full single sheet: header row, then one data row per record in
collection order. -/
def exportSheetRows (parcelles : List Parcelle) : List (List Cell) :=
  headerCells :: excelRows 0 parcelles

/-- Environment of one export run. -/
structure ExportEnv where
  today : String
  documentDirectory : String
  writeFails : Bool
  sharingAvailable : Bool
  shareFails : Bool
deriving Repr, DecidableEq

def msgNoData : String := "Aucune donnée à exporter"
def msgExportError : String := "Une erreur s\x27est produite lors de la création du fichier Excel"

def msgExportShared (fileName : String) : String :=
  "Fichier Excel créé et sauvegardé avec succès\nNom du fichier: " ++ fileName

def msgExportSavedOnly (fileUri : String) : String :=
  "Fichier Excel créé et sauvegardé dans:\n" ++ fileUri

/-- Result of one export run: the user-facing notice, the workbook sheet if
one was built, the file uri if one was written, and whether the share
hand-off ran to completion. -/
structure ExportResult where
  alert : Option String
  sheet : Option (List (List Cell))
  written : Option String
  shared : Bool
deriving Repr, DecidableEq

/-- exportToExcel: an empty collection is rejected up front with a notice
and nothing else happens; otherwise build the sheet, write the file (a
throw aborts with the error alert), then share when a share channel is
available, else report the saved location. -/
def exportToExcel (parcelles : List Parcelle) (env : ExportEnv) : ExportResult :=
  if parcelles.length = 0 then
    { alert := some msgNoData, sheet := none, written := none, shared := false }
  else
    let sheet := exportSheetRows parcelles
    let fileName := "parcelles_list_" ++ env.today ++ ".xlsx"
    let fileUri := env.documentDirectory ++ fileName
    if env.writeFails then
      { alert := some msgExportError, sheet := some sheet, written := none, shared := false }
    else if env.sharingAvailable then
      if env.shareFails then
        { alert := some msgExportError, sheet := some sheet, written := some fileUri,
          shared := false }
      else
        { alert := some (msgExportShared fileName), sheet := some sheet,
          written := some fileUri, shared := true }
    else
      { alert := some (msgExportSavedOnly fileUri), sheet := some sheet,
        written := some fileUri, shared := false }

/-! ### Sample data for concrete instantiations -/

/-- A simple record with the given id, lot number and creation instant. -/
def sampleParcelle (i lot : String) (t : Nat) : Parcelle :=
  { id := i, numeroDeLot := lot, etatDeParcelle := "Bon", nombreDeLogement := "5",
    acheve := "", enCours := "", image := none, createdAt := t }

/-- A media environment in which every device call succeeds. -/
def menvOk : MediaEnv :=
  { permissionGranted := true, copyFails := false, saveFails := false,
    deleteTempFails := false, deleteFails := false }

/-- A save environment in which every device call succeeds. -/
def senvOk : SaveEnv :=
  { media := menvOk, idMillis := 100, fileMillis := 100, nowMillis := 100,
    storageWriteFails := false }

/-- A form state holding a lot number that collides with the one stored
record. -/
def stDupLot : FormState :=
  { numeroDeLot := "A1", etatDeParcelle := "Bon", nombreDeLogement := "5",
    acheve := "", enCours := "", image := none,
    parcelles := [sampleParcelle "1" "A1" 0] }

/-- A form state with untrimmed field values over an empty store. -/
def stPadded : FormState :=
  { numeroDeLot := " A2 ", etatDeParcelle := " Bon ", nombreDeLogement := " 5 ",
    acheve := " R+1 ", enCours := "", image := none, parcelles := [] }

/-- A form state carrying a picked image (no assetId, as pickImage builds
it) over an empty store. -/
def stWithImage : FormState :=
  { numeroDeLot := "B1", etatDeParcelle := "Bon", nombreDeLogement := "5",
    acheve := "", enCours := "", image := some { uri := "cap.jpg", name := "img.jpg", assetId := none },
    parcelles := [] }

/-- A delete environment whose gallery deletion call fails. -/
def denvAssetFail : DeleteEnv :=
  { confirmed := true, storageWriteFails := false,
    media := { permissionGranted := true, copyFails := false, saveFails := false,
               deleteTempFails := false, deleteFails := true } }

/-- An export environment in which every device call succeeds. -/
def envExport : ExportEnv :=
  { today := "2026-10-12", documentDirectory := "docs/", writeFails := false,
    sharingAvailable := true, shareFails := false }

/-! ### Helper lemmas -/

theorem dropWhile_head_false {α : Type} (p : α → Bool) :
    ∀ (l : List α) (x : α) (xs : List α), l.dropWhile p = x :: xs → p x = false := by
  intro l
  induction l with
  | nil => intro x xs h; simp [List.dropWhile] at h
  | cons a as ih =>
    intro x xs h
    by_cases hpa : p a = true
    · rw [List.dropWhile_cons_of_pos hpa] at h
      exact ih x xs h
    · rw [List.dropWhile_cons_of_neg hpa] at h
      cases h
      simpa using hpa

theorem dropWhile_idem {α : Type} (p : α → Bool) (l : List α) :
    (l.dropWhile p).dropWhile p = l.dropWhile p := by
  cases h : l.dropWhile p with
  | nil => rfl
  | cons x xs =>
    have hx := dropWhile_head_false p l x xs h
    rw [List.dropWhile_cons_of_neg (by simp [hx])]

theorem dropTrailingWs_append (l : List Char) :
    dropTrailingWs l ++ (l.reverse.takeWhile isJsWhitespace).reverse = l := by
  unfold dropTrailingWs
  rw [← List.reverse_append, List.takeWhile_append_dropWhile, List.reverse_reverse]

theorem dropTrailingWs_idem (l : List Char) :
    dropTrailingWs (dropTrailingWs l) = dropTrailingWs l := by
  unfold dropTrailingWs
  rw [List.reverse_reverse, dropWhile_idem]

theorem dropTrailingWs_head (m : List Char) (x : Char) (xs : List Char)
    (h : dropTrailingWs m = x :: xs) :
    m = x :: (xs ++ (m.reverse.takeWhile isJsWhitespace).reverse) := by
  have happ := dropTrailingWs_append m
  rw [h] at happ
  exact happ.symm.trans (List.cons_append x xs ((m.reverse.takeWhile isJsWhitespace).reverse))

theorem dropWhile_dropTrailingWs (l : List Char) :
    (dropTrailingWs (l.dropWhile isJsWhitespace)).dropWhile isJsWhitespace =
      dropTrailingWs (l.dropWhile isJsWhitespace) := by
  cases h : dropTrailingWs (l.dropWhile isJsWhitespace) with
  | nil => rfl
  | cons x xs =>
    have hm := dropTrailingWs_head (l.dropWhile isJsWhitespace) x xs h
    have hm' : l.dropWhile isJsWhitespace =
        x :: (xs ++ (((l.dropWhile isJsWhitespace).reverse.takeWhile isJsWhitespace).reverse)) := hm
    have hx : isJsWhitespace x = false := dropWhile_head_false isJsWhitespace l x _ hm'
    rw [List.dropWhile_cons_of_neg (by simp [hx])]

theorem jsTrimList_idem (l : List Char) :
    jsTrimList (jsTrimList l) = jsTrimList l := by
  unfold jsTrimList
  rw [dropWhile_dropTrailingWs, dropTrailingWs_idem]

theorem jsTrim_idem (s : String) : jsTrim (jsTrim s) = jsTrim s := by
  unfold jsTrim
  exact congrArg String.mk (jsTrimList_idem s.data)

theorem nombreDeLogementInvalid_eq_not_positive (s : String) :
    nombreDeLogementInvalid s = !jsNumberPositive (jsStringToNumber s) := by
  unfold nombreDeLogementInvalid
  cases h : jsStringToNumber s with
  | nan => rfl
  | posInf => rfl
  | negInf => rfl
  | num q =>
    simp [jsIsNaN, jsLeZero, jsNumberPositive, ← not_lt]

theorem validateForm_eq (numeroDeLot etatDeParcelle nombreDeLogement : String)
    (parcelles : List Parcelle) :
    validateForm numeroDeLot etatDeParcelle nombreDeLogement parcelles =
      { numeroDeLot := checkNumeroDeLot numeroDeLot parcelles,
        etatDeParcelle := checkEtatDeParcelle etatDeParcelle,
        nombreDeLogement := checkNombreDeLogement nombreDeLogement,
        acheve := none, enCours := none } := by
  by_cases h1 : jsTrim numeroDeLot = "" <;>
    by_cases h2 : (parcelles.find? (fun p => decide (p.numeroDeLot = jsTrim numeroDeLot))).isSome = true <;>
    by_cases h3 : jsTrim etatDeParcelle = "" <;>
    by_cases h4 : jsTrim nombreDeLogement = "" <;>
    by_cases h5 : nombreDeLogementInvalid nombreDeLogement = true <;>
    simp [validateForm, checkNumeroDeLot, checkEtatDeParcelle, checkNombreDeLogement,
      noErrors, h1, h2, h3, h4, h5]

theorem checkNumeroDeLot_eq_none_iff (numeroDeLot : String) (parcelles : List Parcelle) :
    checkNumeroDeLot numeroDeLot parcelles = none ↔
      (jsTrim numeroDeLot ≠ "" ∧ ∀ p ∈ parcelles, p.numeroDeLot ≠ jsTrim numeroDeLot) := by
  unfold checkNumeroDeLot
  have hfind : (parcelles.find? (fun p => decide (p.numeroDeLot = jsTrim numeroDeLot))).isSome = true ↔
      ∃ p ∈ parcelles, p.numeroDeLot = jsTrim numeroDeLot := by
    rw [List.find?_isSome]
    simp
  by_cases h1 : jsTrim numeroDeLot = ""
  · simp [h1]
  · by_cases h2 : (parcelles.find? (fun p => decide (p.numeroDeLot = jsTrim numeroDeLot))).isSome = true
    · rw [if_neg h1, if_pos h2]
      rw [hfind] at h2
      obtain ⟨p, hp, hpe⟩ := h2
      constructor
      · intro h; cases h
      · rintro ⟨_, hall⟩
        exact absurd hpe (hall p hp)
    · rw [if_neg h1, if_neg h2]
      rw [hfind, not_exists] at h2
      constructor
      · intro _
        refine ⟨h1, fun p hp hpe => ?_⟩
        exact h2 p ⟨hp, hpe⟩
      · intro _; rfl

theorem checkNombreDeLogement_eq_none_iff (s : String) :
    checkNombreDeLogement s = none ↔
      (jsTrim s ≠ "" ∧ jsNumberPositive (jsStringToNumber s) = true) := by
  unfold checkNombreDeLogement
  by_cases h1 : jsTrim s = ""
  · simp [h1, msgLogementsRequis]
  · rw [nombreDeLogementInvalid_eq_not_positive] at *
    by_cases h2 : jsNumberPositive (jsStringToNumber s) = true
    · simp [h1, h2, nombreDeLogementInvalid_eq_not_positive]
    · simp [h1, h2, nombreDeLogementInvalid_eq_not_positive, msgNombrePositif]

theorem checkEtatDeParcelle_eq_none_iff (s : String) :
    checkEtatDeParcelle s = none ↔ jsTrim s ≠ "" := by
  unfold checkEtatDeParcelle
  by_cases h : jsTrim s = "" <;> simp [h, msgEtatRequis]

theorem validateForm_eq_noErrors_iff (a b c : String) (parcelles : List Parcelle) :
    validateForm a b c parcelles = noErrors ↔
      (checkNumeroDeLot a parcelles = none ∧ checkEtatDeParcelle b = none ∧
       checkNombreDeLogement c = none) := by
  rw [validateForm_eq]
  unfold noErrors
  constructor
  · intro h
    injection h with h1 h2 h3 _ _
    exact ⟨h1, h2, h3⟩
  · intro ⟨h1, h2, h3⟩
    rw [h1, h2, h3]

theorem jsOrEmpty_eq (s : String) : jsOrEmpty s = s := by
  unfold jsOrEmpty
  by_cases h : s = "" <;> simp [h]

theorem newParcelleOf_trimStable (st : FormState) (env : SaveEnv)
    (si : Option ImageRef) : TrimStable (newParcelleOf st env si) := by
  unfold TrimStable newParcelleOf
  refine ⟨?_, ?_, ?_, ?_, ?_⟩ <;> simp [jsOrEmpty_eq, jsTrim_idem]

theorem handleSave_invalid (st : FormState) (storage : List Parcelle) (env : SaveEnv)
    (h : validateForm st.numeroDeLot st.etatDeParcelle st.nombreDeLogement st.parcelles ≠ noErrors) :
    handleSave st storage env =
      { errors := validateForm st.numeroDeLot st.etatDeParcelle st.nombreDeLogement st.parcelles,
        newRecord := none, parcelles := st.parcelles, storage := storage,
        alertError := false } := by
  simp [handleSave, h]

theorem handleSave_parcelles_cases (st : FormState) (storage : List Parcelle) (env : SaveEnv) :
    ((handleSave st storage env).parcelles = st.parcelles ∧
     (handleSave st storage env).newRecord = none ∧
     (handleSave st storage env).storage = storage) ∨
    (validateForm st.numeroDeLot st.etatDeParcelle st.nombreDeLogement st.parcelles = noErrors ∧
     ∃ si, imageStep st env = Except.ok si ∧
       (handleSave st storage env).parcelles = st.parcelles ++ [newParcelleOf st env si] ∧
       ((handleSave st storage env).newRecord = none ∨
        (handleSave st storage env).newRecord = some (newParcelleOf st env si))) := by
  by_cases hv : validateForm st.numeroDeLot st.etatDeParcelle st.nombreDeLogement st.parcelles = noErrors
  · cases him : imageStep st env with
    | error e => left; simp [handleSave, hv, him]
    | ok si =>
      right
      refine ⟨hv, si, rfl, ?_⟩
      by_cases hw : env.storageWriteFails = true <;> simp [handleSave, hv, him, hw]
  · left
    simp [handleSave, hv]

theorem handleSave_newRecord_eq (st : FormState) (storage : List Parcelle) (env : SaveEnv)
    (p : Parcelle) (h : (handleSave st storage env).newRecord = some p) :
    validateForm st.numeroDeLot st.etatDeParcelle st.nombreDeLogement st.parcelles = noErrors ∧
    ∃ si, imageStep st env = Except.ok si ∧ p = newParcelleOf st env si := by
  by_cases hv : validateForm st.numeroDeLot st.etatDeParcelle st.nombreDeLogement st.parcelles = noErrors
  · cases him : imageStep st env with
    | error e => simp [handleSave, hv, him] at h
    | ok si =>
      by_cases hw : env.storageWriteFails = true
      · simp [handleSave, hv, him, hw] at h
      · simp only [handleSave, hv, if_pos rfl, him, if_neg hw] at h
        refine ⟨hv, si, rfl, ?_⟩
        simp at h
        exact h.symm
  · simp [handleSave, hv] at h

theorem saveImage_ok_some (env : MediaEnv) (numeroDeLotState : String) (fileMillis : Nat)
    (imageUri imageName : String) (r : ImageRef)
    (h : saveImageToMediaLibrary env numeroDeLotState fileMillis imageUri imageName =
      Except.ok (some r)) :
    r.assetId = none ∧ r.uri = imageUri := by
  unfold saveImageToMediaLibrary at h
  by_cases h1 : env.permissionGranted = false
  · simp [h1] at h
  · by_cases h2 : (env.copyFails || env.saveFails || env.deleteTempFails) = true
    · simp [h1, h2] at h
    · rw [if_neg h1, if_neg h2] at h
      simp only [Except.ok.injEq, Option.some.injEq] at h
      rw [← h]
      exact ⟨rfl, rfl⟩

theorem imageStep_assetId_none (st : FormState) (env : SaveEnv) (img : ImageRef)
    (hst : ∀ i0, st.image = some i0 → i0.assetId = none)
    (h : imageStep st env = Except.ok (some img)) : img.assetId = none := by
  unfold imageStep at h
  cases hi : st.image with
  | none => rw [hi] at h; simp at h
  | some i0 =>
    rw [hi] at h
    dsimp only at h
    cases hm : saveImageToMediaLibrary env.media st.numeroDeLot env.fileMillis i0.uri i0.name with
    | error e => rw [hm] at h; simp at h
    | ok mo =>
      rw [hm] at h
      cases mo with
      | none =>
        simp at h
        rw [← h]
        exact hst i0 hi
      | some ma =>
        simp at h
        have hma := saveImage_ok_some env.media st.numeroDeLot env.fileMillis i0.uri i0.name ma hm
        rw [← h]
        exact hma.1

theorem deleteParcelleFilter_of_none (parcelles : List Parcelle) (parcelleId : String)
    (h : ∀ p ∈ parcelles, p.id ≠ parcelleId) :
    deleteParcelleFilter parcelles parcelleId = parcelles := by
  unfold deleteParcelleFilter
  rw [List.filter_eq_self]
  intro a ha
  simpa using h a ha

theorem deleteParcelleFilter_decomp (parcelles : List Parcelle) (parcelleId : String)
    (hnd : (parcelles.map Parcelle.id).Nodup)
    (hmem : ∃ p ∈ parcelles, p.id = parcelleId) :
    ∃ l1 l2 p, parcelles = l1 ++ p :: l2 ∧ p.id = parcelleId ∧
      deleteParcelleFilter parcelles parcelleId = l1 ++ l2 := by
  induction parcelles with
  | nil =>
    obtain ⟨p, hp, _⟩ := hmem
    cases hp
  | cons a as ih =>
    rw [List.map_cons, List.nodup_cons] at hnd
    by_cases ha : a.id = parcelleId
    · refine ⟨[], as, a, rfl, ha, ?_⟩
      have hno : ∀ p ∈ as, p.id ≠ parcelleId := by
        intro p hp hpe
        exact hnd.1 (List.mem_map.mpr ⟨p, hp, by rw [hpe, ha]⟩)
      unfold deleteParcelleFilter
      rw [List.filter_cons]
      have hfa : decide (a.id ≠ parcelleId) = false := by simp [ha]
      rw [hfa]
      simp only [Bool.false_eq_true, if_false, List.nil_append]
      exact deleteParcelleFilter_of_none as parcelleId hno
    · obtain ⟨p, hp, hpe⟩ := hmem
      rcases List.mem_cons.mp hp with heq | hpas
      · subst heq
        exact absurd hpe ha
      · obtain ⟨l1, l2, q, hsplit, hq, hfil⟩ := ih hnd.2 ⟨p, hpas, hpe⟩
        refine ⟨a :: l1, l2, q, by rw [hsplit]; rfl, hq, ?_⟩
        unfold deleteParcelleFilter at hfil ⊢
        rw [List.filter_cons]
        have hfa : decide (a.id ≠ parcelleId) = true := by simp [ha]
        rw [hfa]
        simp only [if_true, hfil, List.cons_append]

theorem excelRows_length (ps : List Parcelle) : ∀ k, (excelRows k ps).length = ps.length := by
  induction ps with
  | nil => intro k; rfl
  | cons p ps ih =>
    intro k
    simp only [excelRows, List.length_cons, ih]

theorem excelRows_all_length (ps : List Parcelle) :
    ∀ k, ∀ row ∈ excelRows k ps, row.length = 11 := by
  induction ps with
  | nil => intro k row hrow; cases hrow
  | cons p ps ih =>
    intro k row hrow
    rcases List.mem_cons.mp hrow with heq | hmem
    · subst heq; rfl
    · exact ih (k + 1) row hmem

theorem excelRows_get? (ps : List Parcelle) :
    ∀ k j p, ps.get? j = some p → (excelRows k ps).get? j = some (excelRow (k + j) p) := by
  induction ps with
  | nil => intro k j p h; cases h
  | cons q ps ih =>
    intro k j p h
    cases j with
    | zero =>
      injection h with h
      subst h
      rfl
    | succ j =>
      have := ih (k + 1) j p h
      simpa [excelRows, Nat.add_assoc, Nat.add_comm 1 j] using this

/-! ### Claims -/

/-- Claim C3: validateForm evaluates every field rule (numeroDeLot,
etatDeParcelle, nombreDeLogement) without short-circuiting and returns the
union of all violations found — its result equals the record formed from the
three independent per-field checks — and it never produces an error for
acheve or enCours, whatever their values (those fields are not even inputs
to the validator). -/
theorem C3_validate_is_union_of_field_checks
    (numeroDeLot etatDeParcelle nombreDeLogement : String) (parcelles : List Parcelle) :
    validateForm numeroDeLot etatDeParcelle nombreDeLogement parcelles =
      { numeroDeLot := checkNumeroDeLot numeroDeLot parcelles,
        etatDeParcelle := checkEtatDeParcelle etatDeParcelle,
        nombreDeLogement := checkNombreDeLogement nombreDeLogement,
        acheve := none, enCours := none } :=
  validateForm_eq numeroDeLot etatDeParcelle nombreDeLogement parcelles

/-- Claim C6: exporting the empty collection is rejected up front with a
user-facing notice; no workbook is built, no file is written, and no share
hand-off occurs, whatever the device environment. -/
theorem C6_empty_export_rejected (env : ExportEnv) :
    exportToExcel [] env =
      { alert := some msgNoData, sheet := none, written := none, shared := false } :=
  rfl

/-- Claim C2: with the other fields valid and the lot number unique,
validateForm reports the positive-number error (distinct from the
empty-field error) for nombreDeLogement values of zero, minus three and a
non-numeric word, reports the empty-field error when the value is empty
after trimming, accepts the value five, and in general accepts exactly the
values whose trimmed form parses under Number() to a number strictly
greater than 0. -/
theorem C2_nombreDeLogement_rules (numeroDeLot etatDeParcelle : String)
    (parcelles : List Parcelle)
    (h1 : jsTrim numeroDeLot ≠ "")
    (h2 : ∀ p ∈ parcelles, p.numeroDeLot ≠ jsTrim numeroDeLot)
    (h3 : jsTrim etatDeParcelle ≠ "") :
    (validateForm numeroDeLot etatDeParcelle "0" parcelles ≠ noErrors ∧
     (validateForm numeroDeLot etatDeParcelle "0" parcelles).nombreDeLogement =
       some msgNombrePositif) ∧
    (validateForm numeroDeLot etatDeParcelle "-3" parcelles ≠ noErrors ∧
     (validateForm numeroDeLot etatDeParcelle "-3" parcelles).nombreDeLogement =
       some msgNombrePositif) ∧
    (validateForm numeroDeLot etatDeParcelle "abc" parcelles ≠ noErrors ∧
     (validateForm numeroDeLot etatDeParcelle "abc" parcelles).nombreDeLogement =
       some msgNombrePositif) ∧
    validateForm numeroDeLot etatDeParcelle "5" parcelles = noErrors ∧
    msgNombrePositif ≠ msgLogementsRequis ∧
    (∀ s, jsTrim s = "" →
      (validateForm numeroDeLot etatDeParcelle s parcelles).nombreDeLogement =
        some msgLogementsRequis) ∧
    (∀ s, (validateForm numeroDeLot etatDeParcelle s parcelles).nombreDeLogement = none ↔
      (jsTrim s ≠ "" ∧ jsNumberPositive (jsStringToNumber s) = true)) := by
  have hlot : checkNumeroDeLot numeroDeLot parcelles = none :=
    (checkNumeroDeLot_eq_none_iff numeroDeLot parcelles).mpr ⟨h1, h2⟩
  have hetat : checkEtatDeParcelle etatDeParcelle = none :=
    (checkEtatDeParcelle_eq_none_iff etatDeParcelle).mpr h3
  have hfield : ∀ s, (validateForm numeroDeLot etatDeParcelle s parcelles).nombreDeLogement =
      checkNombreDeLogement s := by
    intro s
    rw [validateForm_eq]
  have hbad : ∀ s, checkNombreDeLogement s = some msgNombrePositif →
      validateForm numeroDeLot etatDeParcelle s parcelles ≠ noErrors := by
    intro s hs hEq
    have := hfield s
    rw [hEq] at this
    rw [hs] at this
    exact Option.noConfusion this.symm
  refine ⟨⟨hbad "0" (by decide), ?_⟩, ⟨hbad "-3" (by decide), ?_⟩,
    ⟨hbad "abc" (by decide), ?_⟩, ?_, by decide, ?_, ?_⟩
  · rw [hfield]; decide
  · rw [hfield]; decide
  · rw [hfield]; decide
  · exact (validateForm_eq_noErrors_iff numeroDeLot etatDeParcelle "5" parcelles).mpr
      ⟨hlot, hetat, by decide⟩
  · intro s hs
    rw [hfield]
    unfold checkNombreDeLogement
    rw [if_pos hs]
  · intro s
    rw [hfield]
    exact checkNombreDeLogement_eq_none_iff s

/-- Witness for C2 at concrete inputs over the empty store. -/
theorem C2_nombreDeLogement_rules_witness :
    validateForm "A1" "Bon" "5" [] = noErrors ∧
    (validateForm "A1" "Bon" "0" []).nombreDeLogement = some msgNombrePositif ∧
    (validateForm "A1" "Bon" "-3" []).nombreDeLogement = some msgNombrePositif ∧
    (validateForm "A1" "Bon" "abc" []).nombreDeLogement = some msgNombrePositif := by
  have h := C2_nombreDeLogement_rules "A1" "Bon" [] (by decide) (by decide) (by decide)
  exact ⟨h.2.2.2.1, h.1.2, h.2.1.2, h.2.2.1.2⟩

/-- Claim C1: whenever the candidate's numeroDeLot, after trimming, equals
the numeroDeLot of some record already in the collection (a case-sensitive
comparison of the trimmed candidate against the stored values), validation
reports a lot-number error and handleSave performs no insertion — in-memory
list, persisted list and onSave hand-off are all untouched; consequently,
over trim-stable collections (as the validated flow produces, records keep
pairwise-distinct trimmed numeroDeLot values across handleSave. -/
theorem C1_lot_uniqueness (st : FormState) (storage : List Parcelle) (env : SaveEnv) :
    ((∃ p ∈ st.parcelles, p.numeroDeLot = jsTrim st.numeroDeLot) →
      ((validateForm st.numeroDeLot st.etatDeParcelle st.nombreDeLogement
          st.parcelles).numeroDeLot.isSome = true ∧
       (handleSave st storage env).parcelles = st.parcelles ∧
       (handleSave st storage env).storage = storage ∧
       (handleSave st storage env).newRecord = none)) ∧
    ((∀ p ∈ st.parcelles, TrimStable p) →
     List.Pairwise (fun a b => jsTrim a.numeroDeLot ≠ jsTrim b.numeroDeLot) st.parcelles →
     List.Pairwise (fun a b => jsTrim a.numeroDeLot ≠ jsTrim b.numeroDeLot)
       (handleSave st storage env).parcelles) := by
  constructor
  · rintro ⟨p, hp, hpe⟩
    have hfield : (validateForm st.numeroDeLot st.etatDeParcelle st.nombreDeLogement
        st.parcelles).numeroDeLot = checkNumeroDeLot st.numeroDeLot st.parcelles := by
      rw [validateForm_eq]
    have hne_none : checkNumeroDeLot st.numeroDeLot st.parcelles ≠ none := by
      intro hEq
      rw [checkNumeroDeLot_eq_none_iff] at hEq
      obtain ⟨_, hall⟩ := hEq
      exact hall p hp hpe
    have hsome : (validateForm st.numeroDeLot st.etatDeParcelle st.nombreDeLogement
        st.parcelles).numeroDeLot.isSome = true := by
      rw [hfield]
      exact Option.isSome_iff_ne_none.mpr hne_none
    have hinv : validateForm st.numeroDeLot st.etatDeParcelle st.nombreDeLogement
        st.parcelles ≠ noErrors := by
      intro hEq
      rw [hEq] at hsome
      exact Bool.noConfusion hsome
    rw [handleSave_invalid st storage env hinv]
    exact ⟨hsome, rfl, rfl, rfl⟩
  · intro hts hpw
    rcases handleSave_parcelles_cases st storage env with ⟨hp, _, _⟩ | ⟨hv, si, _, hp, _⟩
    · rw [hp]; exact hpw
    · rw [hp, List.pairwise_append]
      refine ⟨hpw, List.pairwise_singleton _ _, ?_⟩
      intro a ha b hb
      rw [List.mem_singleton] at hb
      subst hb
      have hlot : checkNumeroDeLot st.numeroDeLot st.parcelles = none :=
        ((validateForm_eq_noErrors_iff st.numeroDeLot st.etatDeParcelle
          st.nombreDeLogement st.parcelles).mp hv).1
    -- separator comment to keep indentation readable
      rw [checkNumeroDeLot_eq_none_iff] at hlot
      obtain ⟨_, hall⟩ := hlot
      have hnp : (newParcelleOf st env si).numeroDeLot = jsTrim st.numeroDeLot := rfl
      rw [hnp, jsTrim_idem]
      have hts_a := (hts a ha).1
      rw [← hts_a]
      exact hall a ha

/-- Witness for C1: a colliding lot number over a one-record store is
rejected and nothing changes. -/
theorem C1_lot_uniqueness_witness :
    (validateForm stDupLot.numeroDeLot stDupLot.etatDeParcelle stDupLot.nombreDeLogement
      stDupLot.parcelles).numeroDeLot.isSome = true ∧
    (handleSave stDupLot [] senvOk).parcelles = stDupLot.parcelles ∧
    (handleSave stDupLot [] senvOk).storage = [] ∧
    (handleSave stDupLot [] senvOk).newRecord = none :=
  (C1_lot_uniqueness stDupLot [] senvOk).1 (by decide)

/-- Claim C10: every record created by handleSave stores trim-stable field
values — each of the five text fields equals the trimmed form input (with
acheve and enCours defaulting to the empty string), and is unchanged by a
further trim — so a collection of trim-normalized records stays
trim-normalized across handleSave. -/
theorem C10_trim_normalized (st : FormState) (storage : List Parcelle) (env : SaveEnv) :
    (∀ p, (handleSave st storage env).newRecord = some p →
      (p.numeroDeLot = jsTrim st.numeroDeLot ∧
       p.etatDeParcelle = jsTrim st.etatDeParcelle ∧
       p.nombreDeLogement = jsTrim st.nombreDeLogement ∧
       p.acheve = jsTrim st.acheve ∧
       p.enCours = jsTrim st.enCours ∧
       TrimStable p)) ∧
    ((∀ q ∈ st.parcelles, TrimStable q) →
      ∀ q ∈ (handleSave st storage env).parcelles, TrimStable q) := by
  constructor
  · intro p hp
    obtain ⟨_, si, _, hpe⟩ := handleSave_newRecord_eq st storage env p hp
    subst hpe
    refine ⟨rfl, rfl, rfl, ?_, ?_, newParcelleOf_trimStable st env si⟩
    · show jsOrEmpty (jsTrim st.acheve) = jsTrim st.acheve
      exact jsOrEmpty_eq (jsTrim st.acheve)
    · show jsOrEmpty (jsTrim st.enCours) = jsTrim st.enCours
      exact jsOrEmpty_eq (jsTrim st.enCours)
  · intro hts q hq
    rcases handleSave_parcelles_cases st storage env with ⟨hp, _, _⟩ | ⟨_, si, _, hp, _⟩
    · rw [hp] at hq
      exact hts q hq
    · rw [hp] at hq
      rcases List.mem_append.mp hq with hq1 | hq2
      · exact hts q hq1
      · rw [List.mem_singleton] at hq2
        subst hq2
        exact newParcelleOf_trimStable st env si

/-- Witness for C10: a save with padded field values over the empty store
yields a trim-stable record whose fields are the trimmed inputs. -/
theorem C10_trim_normalized_witness :
    (newParcelleOf stPadded senvOk none).numeroDeLot = jsTrim stPadded.numeroDeLot ∧
    (newParcelleOf stPadded senvOk none).etatDeParcelle = jsTrim stPadded.etatDeParcelle ∧
    (newParcelleOf stPadded senvOk none).nombreDeLogement = jsTrim stPadded.nombreDeLogement ∧
    (newParcelleOf stPadded senvOk none).acheve = jsTrim stPadded.acheve ∧
    (newParcelleOf stPadded senvOk none).enCours = jsTrim stPadded.enCours ∧
    TrimStable (newParcelleOf stPadded senvOk none) :=
  (C10_trim_normalized stPadded [] senvOk).1 (newParcelleOf stPadded senvOk none) (by decide)

/-- Claim C4: the list-screen load returns the records sorted in descending
createdAt order (newest first) — a sorted permutation of the stored
collection — while the load operation leaves the persisted storage in its
insertion order; in particular three records with increasing timestamps
come back in reverse order. -/
theorem C4_load_sorted_desc :
    (∀ storage : List Parcelle,
      List.Sorted createdDesc (loadParcelles storage) ∧
      List.Perm (loadParcelles storage) storage ∧
      loadParcellesOp storage = (storage, loadParcelles storage)) ∧
    (∀ p1 p2 p3 : Parcelle, p1.createdAt < p2.createdAt → p2.createdAt < p3.createdAt →
      loadParcelles [p1, p2, p3] = [p3, p2, p1]) := by
  constructor
  · intro storage
    exact ⟨List.sorted_insertionSort createdDesc storage,
      List.perm_insertionSort createdDesc storage, rfl⟩
  · intro p1 p2 p3 h12 h23
    have h13 := lt_trans h12 h23
    have hn23 : ¬ createdDesc p2 p3 := not_le.mpr h23
    have hn13 : ¬ createdDesc p1 p3 := not_le.mpr h13
    have hn12 : ¬ createdDesc p1 p2 := not_le.mpr h12
    simp [loadParcelles, List.insertionSort, List.orderedInsert, hn23, hn13, hn12]

/-- Witness for C4 on three concrete records with timestamps 1 < 2 < 3. -/
theorem C4_load_sorted_desc_witness :
    loadParcelles [sampleParcelle "1" "A" 1, sampleParcelle "2" "B" 2,
        sampleParcelle "3" "C" 3] =
      [sampleParcelle "3" "C" 3, sampleParcelle "2" "B" 2, sampleParcelle "1" "A" 1] :=
  C4_load_sorted_desc.2 (sampleParcelle "1" "A" 1) (sampleParcelle "2" "B" 2)
    (sampleParcelle "3" "C" 3) (by decide) (by decide)

/-- Counterexample for Claim C5 as stated: the claim quantifies over every
collection, but on a collection in which two records share the id the
deletion removes both, so the size drops by 2, not by exactly 1. -/
theorem C5_delete_by_id_counterexample :
    (∃ p ∈ [sampleParcelle "1" "A1" 0, sampleParcelle "1" "A2" 1], p.id = "1") ∧
    (deleteParcelleFilter [sampleParcelle "1" "A1" 0, sampleParcelle "1" "A2" 1] "1").length = 0 ∧
    ¬((deleteParcelleFilter [sampleParcelle "1" "A1" 0, sampleParcelle "1" "A2" 1] "1").length + 1 =
      ([sampleParcelle "1" "A1" 0, sampleParcelle "1" "A2" 1] : List Parcelle).length) := by
  decide

/-- Claim C5 (amended: over collections whose ids are pairwise distinct, as
the store's id-uniqueness invariant guarantees): deleting by id removes
exactly the record with that id — size drops by exactly 1 and the remaining
list is the original with that one record cut out — deleting an absent id
is a no-op, records with other ids survive unchanged, and the confirmed
delete operation persists exactly the filtered list. -/
theorem C5_delete_by_id (parcelles : List Parcelle) (parcelleId : String)
    (hnd : (parcelles.map Parcelle.id).Nodup) :
    ((∃ p ∈ parcelles, p.id = parcelleId) →
      ((deleteParcelleFilter parcelles parcelleId).length + 1 = parcelles.length ∧
       ∃ l1 l2 p, parcelles = l1 ++ p :: l2 ∧ p.id = parcelleId ∧
         deleteParcelleFilter parcelles parcelleId = l1 ++ l2)) ∧
    ((∀ p ∈ parcelles, p.id ≠ parcelleId) →
      deleteParcelleFilter parcelles parcelleId = parcelles) ∧
    (∀ p ∈ parcelles, p.id ≠ parcelleId → p ∈ deleteParcelleFilter parcelles parcelleId) ∧
    (∀ p ∈ deleteParcelleFilter parcelles parcelleId, p ∈ parcelles ∧ p.id ≠ parcelleId) ∧
    (∀ env : DeleteEnv, env.confirmed = true → env.storageWriteFails = false →
      ∀ storage image, (deleteParcelle parcelles storage parcelleId image env).storage =
        deleteParcelleFilter parcelles parcelleId) := by
  refine ⟨?_, deleteParcelleFilter_of_none parcelles parcelleId, ?_, ?_, ?_⟩
  · intro hmem
    obtain ⟨l1, l2, p, hsplit, hpe, hfil⟩ :=
      deleteParcelleFilter_decomp parcelles parcelleId hnd hmem
    constructor
    · rw [hfil, hsplit]
      simp [List.length_append]
      omega
    · exact ⟨l1, l2, p, hsplit, hpe, hfil⟩
  · intro p hp hne
    unfold deleteParcelleFilter
    rw [List.mem_filter]
    exact ⟨hp, by simpa using hne⟩
  · intro p hp
    unfold deleteParcelleFilter at hp
    rw [List.mem_filter] at hp
    exact ⟨hp.1, by simpa using hp.2⟩
  · intro env h1 h2 storage image
    simp [deleteParcelle, h1, h2]

/-- Witness for C5 on a two-record collection with distinct ids. -/
theorem C5_delete_by_id_witness :
    (deleteParcelleFilter [sampleParcelle "1" "A" 1, sampleParcelle "2" "B" 2] "1").length + 1 =
      ([sampleParcelle "1" "A" 1, sampleParcelle "2" "B" 2] : List Parcelle).length :=
  ((C5_delete_by_id [sampleParcelle "1" "A" 1, sampleParcelle "2" "B" 2] "1"
    (by decide)).1 (by decide)).1

/-- Claim C7: for a non-empty collection of N records the export builds the
single sheet with exactly N+1 rows — the fixed 11-label header row followed
by one 11-cell data row per record in the collection's current order — and
the first cell of the row for the record at 0-based position j is the
sequential number j+1. -/
theorem C7_export_shape (parcelles : List Parcelle) (env : ExportEnv)
    (h : parcelles ≠ []) :
    (exportToExcel parcelles env).sheet = some (exportSheetRows parcelles) ∧
    (exportSheetRows parcelles).length = parcelles.length + 1 ∧
    (∀ row ∈ exportSheetRows parcelles, row.length = 11) ∧
    (exportSheetRows parcelles).get? 0 = some headerCells ∧
    headerCells.length = 11 ∧
    (∀ j p, parcelles.get? j = some p →
      (exportSheetRows parcelles).get? (j + 1) = some (excelRow j p) ∧
      (excelRow j p).get? 0 = some (Cell.num (j + 1))) := by
  have hlen : ¬(parcelles.length = 0) := by
    simpa [List.length_eq_zero] using h
  refine ⟨?_, ?_, ?_, rfl, rfl, ?_⟩
  · unfold exportToExcel
    rw [if_neg hlen]
    by_cases hw : env.writeFails = true <;>
      by_cases hs : env.sharingAvailable = true <;>
      by_cases hf : env.shareFails = true <;>
      simp [hw, hs, hf]
  · simp only [exportSheetRows, List.length_cons, excelRows_length]
  · intro row hrow
    rcases List.mem_cons.mp hrow with heq | hmem
    · subst heq; rfl
    · exact excelRows_all_length parcelles 0 row hmem
  · intro j p hj
    refine ⟨?_, rfl⟩
    show (excelRows 0 parcelles).get? j = some (excelRow j p)
    simpa using excelRows_get? parcelles 0 j p hj

/-- Witness for C7 on a one-record collection. -/
theorem C7_export_shape_witness :
    (exportToExcel [sampleParcelle "1" "A" 1] envExport).sheet =
      some (exportSheetRows [sampleParcelle "1" "A" 1]) ∧
    (exportSheetRows [sampleParcelle "1" "A" 1]).length = 2 := by
  have h := C7_export_shape [sampleParcelle "1" "A" 1] envExport (by decide)
  exact ⟨h.1, h.2.1⟩

/-- Claim C8: in the gallery-variant image save, every successful run
returns an image reference whose assetId is unset and whose uri is the
original capture uri; pickImage never sets an assetId on the form image;
and consequently no handleSave run from such a form state ever creates a
record whose image carries an assetId. -/
theorem C8_assetId_never_set :
    (∀ (menv : MediaEnv) (lot : String) (t : Nat) (uri nm : String),
      menv.permissionGranted = true → menv.copyFails = false → menv.saveFails = false →
      menv.deleteTempFails = false →
      ∃ r, saveImageToMediaLibrary menv lot t uri nm = Except.ok (some r) ∧
        r.assetId = none ∧ r.uri = uri) ∧
    (∀ (penv : PickEnv) (lot : String) (img : ImageRef),
      pickImage penv lot = some img → img.assetId = none) ∧
    (∀ (st : FormState) (storage : List Parcelle) (env : SaveEnv) (p : Parcelle)
        (img : ImageRef),
      (∀ i0, st.image = some i0 → i0.assetId = none) →
      (handleSave st storage env).newRecord = some p →
      p.image = some img → img.assetId = none) := by
  refine ⟨?_, ?_, ?_⟩
  · intro menv lot t uri nm h1 h2 h3 h4
    unfold saveImageToMediaLibrary
    rw [if_neg (by simp [h1]), if_neg (by simp [h2, h3, h4])]
    exact ⟨_, rfl, rfl, rfl⟩
  · intro penv lot img h
    unfold pickImage at h
    by_cases h1 : penv.cameraGranted = false
    · rw [if_pos h1] at h
      cases h
    · rw [if_neg h1] at h
      by_cases h2 : penv.canceled = true
      · rw [if_pos h2] at h
        cases h
      · rw [if_neg h2] at h
        injection h with h
        rw [← h]
  · intro st storage env p img hst hp hpi
    obtain ⟨_, si, hstep, hpe⟩ := handleSave_newRecord_eq st storage env p hp
    subst hpe
    have hsi : si = some img := hpi
    rw [hsi] at hstep
    exact imageStep_assetId_none st env img hst hstep

/-- Witness for C8: a fully successful save of a concrete capture returns
the original uri with no assetId. -/
theorem C8_assetId_never_set_witness :
    saveImageToMediaLibrary menvOk "A1" 5 "cap.jpg" "img.jpg" =
      Except.ok (some { uri := "cap.jpg", name := "Parcelle_A1_5.jpg", assetId := none }) ∧
    ({ uri := "cap.jpg", name := "Parcelle_A1_5.jpg", assetId := none } : ImageRef).assetId =
      none := by
  obtain ⟨r, hr, ha, hu⟩ := C8_assetId_never_set.1 menvOk "A1" 5 "cap.jpg" "img.jpg"
    rfl rfl rfl rfl
  have hcomp : saveImageToMediaLibrary menvOk "A1" 5 "cap.jpg" "img.jpg" =
      Except.ok (some { uri := "cap.jpg", name := "Parcelle_A1_5.jpg", assetId := none }) := rfl
  have hreq : r = { uri := "cap.jpg", name := "Parcelle_A1_5.jpg", assetId := none } := by
    have h2 := hr.symm.trans hcomp
    simp only [Except.ok.injEq, Option.some.injEq] at h2
    exact h2
  exact ⟨hreq ▸ hr, rfl⟩

/-- Claim C9: gallery-asset deletion is best-effort — the helper returns a
log value in every case (a failing deletion is caught, never propagated),
and a confirmed record deletion with a successful storage write persists the
filtered collection and reports success regardless of how the asset-deletion
step fares. -/
theorem C9_asset_delete_best_effort (parcelles storage : List Parcelle)
    (parcelleId : String) (image : Option ImageRef) (env env2 : DeleteEnv)
    (h1 : env.confirmed = true) (h2 : env.storageWriteFails = false)
    (h3 : env2.confirmed = true) (h4 : env2.storageWriteFails = false) :
    (deleteParcelle parcelles storage parcelleId image env).storage =
      deleteParcelleFilter parcelles parcelleId ∧
    (deleteParcelle parcelles storage parcelleId image env).parcelles =
      deleteParcelleFilter parcelles parcelleId ∧
    (deleteParcelle parcelles storage parcelleId image env).alert = some msgDeleteSuccess ∧
    (deleteParcelle parcelles storage parcelleId image env).storage =
      (deleteParcelle parcelles storage parcelleId image env2).storage ∧
    (deleteParcelle parcelles storage parcelleId image env).alert =
      (deleteParcelle parcelles storage parcelleId image env2).alert ∧
    (∀ (menv : MediaEnv) (aid : String), aid ≠ "" → menv.permissionGranted = true →
      menv.deleteFails = true →
      deleteImageFromMediaLibrary menv (some aid) = AssetDeleteLog.failedButCaught) := by
  refine ⟨?_, ?_, ?_, ?_, ?_, ?_⟩
  · simp [deleteParcelle, h1, h2]
  · simp [deleteParcelle, h1, h2]
  · simp [deleteParcelle, h1, h2]
  · simp [deleteParcelle, h1, h2, h3, h4]
  · simp [deleteParcelle, h1, h2, h3, h4]
  · intro menv aid ha hp hd
    simp [deleteImageFromMediaLibrary, ha, hp, hd]

/-- Witness for C9: a confirmed deletion whose gallery cleanup fails still
persists the filtered list and reports success. -/
theorem C9_asset_delete_best_effort_witness :
    (deleteParcelle [sampleParcelle "1" "A" 1] [sampleParcelle "1" "A" 1] "1"
        (some { uri := "u", name := "n", assetId := some "asset1" }) denvAssetFail).storage =
      deleteParcelleFilter [sampleParcelle "1" "A" 1] "1" ∧
    (deleteParcelle [sampleParcelle "1" "A" 1] [sampleParcelle "1" "A" 1] "1"
        (some { uri := "u", name := "n", assetId := some "asset1" }) denvAssetFail).alert =
      some msgDeleteSuccess := by
  have h := C9_asset_delete_best_effort [sampleParcelle "1" "A" 1] [sampleParcelle "1" "A" 1]
    "1" (some { uri := "u", name := "n", assetId := some "asset1" })
    denvAssetFail denvAssetFail rfl rfl rfl rfl
  exact ⟨h.1, h.2.2.1⟩

end HouseManager
